import Mathlib

/-!
Verification of the Statistical Analysis Engine of survey-data-analyzer.

This file gives a shallow embedding, in Lean 4, of the analysis engine in
src/analyzer.py (class SurveyAnalyzer), together with theorems settling the
frozen claims C1 to C10 about it.

Modelling conventions:
* A Python value in a survey cell is modelled by Value: None, a number, or a
  text string.  Numbers are modelled by the rationals; Python float() applied
  to the textual form of a value is modelled by Value.toNum?, using an
  explicit decimal parser for strings (optional sign, digits, one optional
  decimal point).
* A record (Python dict) is an association list of column name and value;
  dict.get with default None is pyGet.  Python dicts preserve insertion
  order, which the list order models.
* Python round(x, n) rounds half to even; pyRound models it on rationals.
* Exceptions are modelled with Except: a computation that can raise an
  AttributeError (because the source calls a method that does not exist in
  the class) returns Except PyErr.
-/

namespace SurveyAnalysis

/-- A survey cell value: Python None, a number, or a text string. -/
inductive Value where
  | null : Value
  | num : ℚ → Value
  | text : String → Value
deriving DecidableEq

/-- Numeric value of a list of decimal digit characters. -/
def digitsToNat (cs : List Char) : ℕ :=
  cs.foldl (fun a c => 10 * a + (c.toNat - 48)) 0

/-- Parse an unsigned decimal numeral, written as a character list:
digits with at most one decimal point, at least one digit overall. -/
def parseUnsigned (l : List Char) : Option ℚ :=
  let ip := l.takeWhile Char.isDigit
  let rest := l.dropWhile Char.isDigit
  match rest with
  | [] => if ip = [] then none else some (digitsToNat ip : ℚ)
  | '.' :: fp =>
    if fp.all Char.isDigit ∧ (ip ≠ [] ∨ fp ≠ []) then
      some ((digitsToNat ip : ℚ) + (digitsToNat fp : ℚ) / (10 : ℚ) ^ fp.length)
    else none
  | _ => none

/-- Numeric parse of a string, modelling Python float() on the decimal
fragment: an optional sign, then digits with an optional single decimal
point.  The empty string and non-numeric text fail, as float() does. -/
def parseNum (s : String) : Option ℚ :=
  match s.toList with
  | '-' :: rest => (parseUnsigned rest).map (fun q => -q)
  | '+' :: rest => parseUnsigned rest
  | cs => parseUnsigned cs

/-- Python str() of a value.  None renders as "None"; numbers use the
rational rendering (no claim depends on the rendering of numeric values:
they never fail numeric coercion, and only coercion failures have their
textual length inspected by the engine). -/
def Value.toStr : Value → String
  | .null => "None"
  | .num q => toString q
  | .text s => s

/-- Numeric coercion of a value, modelling float(value) and
float(str(value)) in the source (both agree on this value domain):
None fails, numbers succeed, strings go through parseNum. -/
def Value.toNum? : Value → Option ℚ
  | .null => none
  | .num q => some q
  | .text s => parseNum s

/-- Python truthiness of a value, as used by analyze_text_column
(analyzer.py line 160): None, zero and the empty string are falsy. -/
def Value.truthy : Value → Bool
  | .null => false
  | .num q => q ≠ 0
  | .text s => s ≠ ""

/-- The inferred type of a column (analyzer.py determine_data_type). -/
inductive DataType where
  | numeric | categorical | text | unknown
deriving DecidableEq

/-- The numeric classification threshold set in SurveyAnalyzer.__init__
(analyzer.py line 18): self.numeric_threshold = 0.8.  It is assigned once
and never written afterwards. -/
def numeric_threshold : ℚ := 8 / 10

/-- The loop of determine_data_type (analyzer.py lines 89 to 96):
for each value, try float(str(value)) and count successes; on failure
accumulate len(str(value)).  Returns (numeric_count, text_length_total). -/
def typeCounts (values : List Value) : ℕ × ℕ :=
  values.foldl
    (fun acc value =>
      match value.toNum? with
      | some _ => (acc.1 + 1, acc.2)
      | none => (acc.1, acc.2 + value.toStr.length))
    (0, 0)

/-- determine_data_type (analyzer.py lines 80 to 107): empty input is
unknown; otherwise numeric when numeric_ratio is at least the threshold,
else text when the average failed-parse text length exceeds 50, else
categorical. -/
def determine_data_type (values : List Value) : DataType :=
  if values = [] then .unknown
  else
    let counts := typeCounts values
    let numeric_frac : ℚ := (counts.1 : ℚ) / (values.length : ℚ)
    let avg_text_length : ℚ := (counts.2 : ℚ) / (values.length : ℚ)
    if numeric_frac ≥ numeric_threshold then .numeric
    else if avg_text_length > 50 then .text
    else .categorical

/-- Specification-side count of numeric-coercible values in a column. -/
def numericCount (values : List Value) : ℕ :=
  (values.filter (fun v => (v.toNum?).isSome)).length

/-- Specification-side total textual length of the values that fail the
numeric parse. -/
def failedTextLength (values : List Value) : ℕ :=
  ((values.filter (fun v => v.toNum? = none)).map (fun v => v.toStr.length)).sum

/-- The loop accumulator of determine_data_type computes exactly the
specification-side counts, from any starting accumulator. -/
theorem typeCounts_go (values : List Value) (a b : ℕ) :
    values.foldl
      (fun acc value =>
        match value.toNum? with
        | some _ => (acc.1 + 1, acc.2)
        | none => (acc.1, acc.2 + value.toStr.length))
      (a, b)
    = (a + numericCount values, b + failedTextLength values) := by
  induction values generalizing a b with
  | nil => simp [numericCount, failedTextLength]
  | cons v l ih =>
    cases h : v.toNum? with
    | some q =>
      simp only [List.foldl_cons, h, ih, numericCount, failedTextLength,
        List.filter_cons]
      have hs : (v.toNum?).isSome = true := by rw [h]; rfl
      have hn : ¬ (v.toNum? = none) := by rw [h]; simp
      simp [hs, hn, h, Nat.add_assoc, Nat.add_comm, Nat.add_left_comm]
    | none =>
      simp only [List.foldl_cons, h, ih, numericCount, failedTextLength,
        List.filter_cons]
      have hs : (v.toNum?).isSome = false := by rw [h]; rfl
      have hn : (v.toNum? = none) := h
      simp [hs, hn, Nat.add_assoc, Nat.add_comm, Nat.add_left_comm]

/-- typeCounts computes the numeric-coercible count and the total
failed-parse text length. -/
theorem typeCounts_eq (values : List Value) :
    typeCounts values = (numericCount values, failedTextLength values) := by
  have h := typeCounts_go values 0 0
  simpa [typeCounts] using h

/-- Round half to even on rationals: the rounding rule of Python round(). -/
def pyRoundInt (q : ℚ) : ℤ :=
  let f := ⌊q⌋
  if q - f < 1 / 2 then f
  else if q - f > 1 / 2 then f + 1
  else if f % 2 = 0 then f else f + 1

/-- Python round(q, ndigits) on rationals. -/
def pyRound (q : ℚ) (ndigits : ℕ) : ℚ :=
  (pyRoundInt (q * (10 : ℚ) ^ ndigits) : ℚ) / (10 : ℚ) ^ ndigits

/-- Round half to even on reals, for the one statistic whose value is
irrational in general (the sample standard deviation). -/
noncomputable def pyRoundReal (x : ℝ) (ndigits : ℕ) : ℝ :=
  let y := x * (10 : ℝ) ^ ndigits
  let f := ⌊y⌋
  (if y - f < 1 / 2 then (f : ℝ)
   else if y - f > 1 / 2 then (f : ℝ) + 1
   else if f % 2 = 0 then (f : ℝ) else (f : ℝ) + 1) / (10 : ℝ) ^ ndigits

/-- statistics.mean of a list of rationals.  The library raises on an
empty list; every call site in the engine guards nonemptiness, and the
model returns 0 there. -/
def statMean (xs : List ℚ) : ℚ := xs.sum / (xs.length : ℚ)

/-- statistics.median: middle of the sorted values, or the mean of the two
middle values for even length.  Call sites guard nonemptiness. -/
def statMedian (xs : List ℚ) : ℚ :=
  let s := xs.insertionSort (· ≤ ·)
  let n := xs.length
  if n % 2 = 1 then s.getD (n / 2) 0
  else (s.getD (n / 2 - 1) 0 + s.getD (n / 2) 0) / 2

/-- Python min over a nonempty list; the default is returned only for the
empty list, which every call site guards against. -/
def pyMin {α : Type} [Min α] (d : α) : List α → α
  | [] => d
  | x :: xs => xs.foldl min x

/-- Python max over a nonempty list; the default is returned only for the
empty list, which every call site guards against. -/
def pyMax {α : Type} [Max α] (d : α) : List α → α
  | [] => d
  | x :: xs => xs.foldl max x

/-- The distinct elements of a list in first-occurrence order, skipping
elements already seen: the key order of a Python dict or Counter built
from the list. -/
def firstUniques {α : Type} [DecidableEq α] : List α → List α → List α
  | [], _ => []
  | x :: xs, seen =>
    if x ∈ seen then firstUniques xs seen else x :: firstUniques xs (x :: seen)

/-- The keys of Counter(l), in first-occurrence order. -/
def counterKeys {α : Type} [DecidableEq α] (l : List α) : List α :=
  firstUniques l []

/-- The items of Counter(l): each distinct element with its multiplicity,
in first-occurrence order. -/
def counterItems {α : Type} [DecidableEq α] (l : List α) : List (α × ℕ) :=
  (counterKeys l).map (fun c => (c, l.count c))

/-- Stable insertion into a list sorted by descending count: the inserted
pair goes before the first pair whose count it reaches, so that among
equal counts the insertion order is preserved. -/
def insertByCount {α : Type} (p : α × ℕ) : List (α × ℕ) → List (α × ℕ)
  | [] => [p]
  | q :: qs => if p.2 ≥ q.2 then p :: q :: qs else q :: insertByCount p qs

/-- Counter.most_common(): the counter items sorted by descending count;
CPython uses a stable sort, so ties keep first-occurrence order. -/
def most_common {α : Type} [DecidableEq α] (l : List α) : List (α × ℕ) :=
  (counterItems l).foldr insertByCount []

/-- statistics.mode for Python 3.8 and later (setup.py pins
python_requires to at least 3.8): the first-encountered value among those
of maximal multiplicity; StatisticsError, modelled as none, occurs only
for empty input.  In particular a tie between several modes does NOT
raise: the first one is returned. -/
def pyMode (xs : List ℚ) : Option ℚ :=
  ((most_common xs).head?).map Prod.fst

/-- safe_mode (analyzer.py lines 131 to 137): round(statistics.mode(v), 2),
falling back to the rounded mean when mode raises StatisticsError.  On the
Python versions the package supports, mode raises only on empty input, so
the fallback branch is dead for the nonempty lists the caller passes. -/
def safe_mode (values : List ℚ) : ℚ :=
  match pyMode values with
  | some m => pyRound m 2
  | none => pyRound (statMean values) 2

/-- Sample variance (denominator length - 1) of a list of rationals. -/
def sampleVar (xs : List ℚ) : ℚ :=
  ((xs.map (fun x => (x - statMean xs) ^ 2)).sum) / ((xs.length : ℚ) - 1)

/-- The numeric statistics dict of analyze_numeric_column (analyzer.py
lines 121 to 128): all rounded to 2 decimals except min, max and range. -/
structure NumericStats where
  mean : ℚ
  median : ℚ
  mode : ℚ
  std_dev : ℝ
  min_value : ℚ
  max_value : ℚ
  range : ℚ

/-- analyze_numeric_column (analyzer.py lines 109 to 129): coerce each
value with float, silently dropping failures; if no value survives,
return the error marker dict for this column; otherwise the statistics.
The standard deviation is 0 for fewer than 2 values (line 125). -/
noncomputable def analyze_numeric_column (values : List Value) :
    Except String NumericStats :=
  let numeric_values := values.filterMap Value.toNum?
  if numeric_values = [] then Except.error "No valid numeric values found"
  else Except.ok
    { mean := pyRound (statMean numeric_values) 2
      median := pyRound (statMedian numeric_values) 2
      mode := safe_mode numeric_values
      std_dev :=
        if numeric_values.length > 1 then
          pyRoundReal (Real.sqrt ((sampleVar numeric_values : ℚ) : ℝ)) 2
        else 0
      min_value := pyMin 0 numeric_values
      max_value := pyMax 0 numeric_values
      range := pyMax 0 numeric_values - pyMin 0 numeric_values }

/-- The categorical statistics of analyze_categorical_column (analyzer.py
lines 139 to 157).  The source stores each percentage as a string with a
percent sign; the model keeps the numeric value rounded to 1 decimal. -/
structure CatStats where
  most_common : Option (String × ℕ)
  category_count : ℕ
  frequency_distribution : List (String × ℕ × ℚ)

/-- analyze_categorical_column (analyzer.py lines 139 to 157): frequency
of each textual form, in most_common order, with count and percentage. -/
def analyze_categorical_column (values : List Value) : CatStats :=
  let freq := most_common (values.map Value.toStr)
  { most_common := freq.head?
    category_count := freq.length
    frequency_distribution :=
      freq.map (fun p =>
        (p.1, p.2, pyRound ((p.2 : ℚ) / (values.length : ℚ) * 100) 1)) }

/-- The text statistics of analyze_text_column (analyzer.py 169 to 175). -/
structure TextStats where
  average_length : ℚ
  average_word_count : ℚ
  shortest_response : ℕ
  longest_response : ℕ
  total_words : ℕ

/-- Number of words of a string: maximal nonempty runs of non-whitespace
characters, modelling Python str.split() with no argument.  The Bool
argument records whether the scan is inside a word. -/
def countWordsAux : List Char → Bool → ℕ
  | [], _ => 0
  | c :: cs, inWord =>
    if c.isWhitespace then countWordsAux cs false
    else if inWord then countWordsAux cs true
    else 1 + countWordsAux cs true

/-- len(s.split()) for a Python string. -/
def wordCount (s : String) : ℕ := countWordsAux s.toList false

/-- analyze_text_column (analyzer.py lines 159 to 175): keep the truthy
values as strings; when none is left, return the error marker for this
column; otherwise length and word statistics. -/
def analyze_text_column (values : List Value) : Except String TextStats :=
  let text_values := (values.filter Value.truthy).map Value.toStr
  if text_values = [] then Except.error "No text values found"
  else
    let lengths := text_values.map String.length
    let word_counts := text_values.map wordCount
    Except.ok
      { average_length := pyRound (statMean (lengths.map (fun n => (n : ℚ)))) 1
        average_word_count := pyRound (statMean (word_counts.map (fun n => (n : ℚ)))) 1
        shortest_response := pyMin 0 lengths
        longest_response := pyMax 0 lengths
        total_words := word_counts.sum }

/-- The type-specific part of a column profile: the result of the
dict.update dispatch in analyze_column (analyzer.py lines 71 to 76).
For an unknown column nothing is added. -/
inductive TypeStats where
  | numeric : Except String NumericStats → TypeStats
  | categorical : CatStats → TypeStats
  | text : Except String TextStats → TypeStats
  | noStats : TypeStats

/-- A column profile (analyzer.py lines 63 to 68 plus the update). -/
structure ColumnAnalysis where
  name : String
  total_values : ℕ
  unique_values : ℕ
  data_type : DataType
  details : TypeStats

/-- analyze_column (analyzer.py lines 61 to 78): name, counts, inferred
type, and the type-specific statistics selected on the inferred type. -/
noncomputable def analyze_column (column_name : String) (values : List Value) :
    ColumnAnalysis :=
  let dt := determine_data_type values
  { name := column_name
    total_values := values.length
    unique_values := (counterKeys (values.map Value.toStr)).length
    data_type := dt
    details :=
      match dt with
      | .numeric => .numeric (analyze_numeric_column values)
      | .categorical => .categorical (analyze_categorical_column values)
      | .text => .text (analyze_text_column values)
      | .unknown => .noStats }

/-- A survey record: a Python dict from column name to value, modelled as
an insertion-ordered association list.  Python dict keys are unique;
where a proof needs that, it carries an explicit Nodup hypothesis. -/
abbrev Record := List (String × Value)

/-- record.get(column): the stored value, or None when the key is absent. -/
def pyGet (r : Record) (column : String) : Value :=
  match r.find? (fun p => p.1 = column) with
  | some p => p.2
  | none => Value.null

/-- The keys of a record, in insertion order. -/
def recordKeys (r : Record) : List String := r.map Prod.fst

/-- The keys of the first record: the column set of the dataset
(data[0].keys(), or empty for an empty dataset). -/
def firstKeys (data : List Record) : List String := recordKeys (data.headD [])

/-- The non-null values of a column, in record order (analyzer.py line
52): [record.get(column) for record in data if record.get(column) is not
None]. -/
def column_values (data : List Record) (column : String) : List Value :=
  (data.filter (fun r => decide (pyGet r column ≠ Value.null))).map
    (fun r => pyGet r column)

/-- The dict built by calculate_basic_statistics (analyzer.py 39 to 59). -/
structure BasicStats where
  total_responses : ℕ
  response_rate : String
  column_count : ℕ
  column_analysis : List (String × ColumnAnalysis)

/-- The body of the column loop of calculate_basic_statistics (analyzer.py
lines 51 to 56): the profile entry for one column, or none when the
column has no non-null value. -/
noncomputable def columnEntryBuilder (data : List Record) (column : String) :
    Option (String × ColumnAnalysis) :=
  let cv := column_values data column
  if cv = [] then none else some (column, analyze_column column cv)

/-- calculate_basic_statistics (analyzer.py lines 39 to 59).  The loop on
line 51 ranges over the keys of the first record and, on line 54, adds a
profile entry only when the column has at least one non-null value:
all-null columns get no entry.  For an empty dataset the source would
raise on data[0]; analyze_dataset guards that case before calling. -/
noncomputable def calculate_basic_statistics (data : List Record) : BasicStats :=
  { total_responses := data.length
    response_rate := "100%"
    column_count := (firstKeys data).length
    column_analysis := (firstKeys data).filterMap (columnEntryBuilder data) }

/-- An exception raised by the embedded code.  The only exceptions it can
raise are attribute lookups of methods that are called but do not exist
in the class SurveyAnalyzer as shipped. -/
inductive PyErr where
  | attributeError : String → PyErr
deriving DecidableEq

/-- calculate_completion_rate (analyzer.py lines 186 to 200): for each
column of the first record, the percentage of records whose value is
neither None nor the empty string, rounded to 1 decimal. -/
def calculate_completion_rate (data : List Record) : List (String × ℚ) :=
  match data with
  | [] => []
  | _ :: _ =>
    (firstKeys data).map (fun column =>
      let completed := (data.filter (fun r =>
        decide (pyGet r column ≠ Value.null ∧
          pyGet r column ≠ Value.text ""))).length
      (column, pyRound ((completed : ℚ) / (data.length : ℚ) * 100) 1))

/-- analyze_response_patterns (analyzer.py lines 177 to 184).  After
computing the completion rate the source evaluates
self.analyze_response_consistency(data) on line 180; that method does
not exist anywhere in the repository, so the lookup raises
AttributeError for every dataset this function receives. -/
def analyze_response_patterns (data : List Record) :
    Except PyErr (List (String × ℚ)) :=
  let _completion_rate := calculate_completion_rate data
  Except.error (PyErr.attributeError "analyze_response_consistency")

/-- The keyword list of analyze_satisfaction_metrics (analyzer.py 203). -/
def satisfaction_keywords : List String :=
  ["satisfaction", "rating", "score", "recommend"]

/-- Substring containment on character lists, structurally: the needle
occurs in the haystack (the empty needle always occurs, as for the
Python in operator on strings). -/
def containsSub : List Char → List Char → Bool
  | [], needle => needle.isEmpty
  | c :: t, needle => needle.isPrefixOf (c :: t) || containsSub t needle

/-- Case-insensitive keyword match of analyzer.py line 209: some
satisfaction keyword occurs in str(column).lower(). -/
def is_satisfaction_column (column : String) : Bool :=
  satisfaction_keywords.any (fun k =>
    containsSub (column.toList.map Char.toLower) k.toList)

/-- The content of a satisfaction profile: the numeric branch (average
score, qualitative bucket, score distribution) or the categorical branch
(response distribution, most common response). -/
inductive SatContent where
  | numeric : ℚ → String → List (ℚ × ℕ) → SatContent
  | categorical : List (String × ℕ) → Option (String × ℕ) → SatContent

/-- A satisfaction profile: the column name plus the branch content
(analyzer.py lines 221 to 245). -/
structure SatProfile where
  column : String
  content : SatContent

/-- analyze_satisfaction_column (analyzer.py lines 220 to 245).  When at
least one value coerces to a number, the source evaluates
self.categorize_satisfaction_score on line 235; that attribute does not
exist: the def on line 247 is nested inside this very method after its
return statement, so it is unreachable and never becomes a method.  The
numeric branch therefore raises AttributeError.  The categorical branch
(lines 240 to 243) completes normally. -/
def analyze_satisfaction_column (column_name : String) (values : List Value) :
    Except PyErr SatProfile :=
  let numeric_values := values.filterMap Value.toNum?
  if numeric_values ≠ [] then
    Except.error (PyErr.attributeError "categorize_satisfaction_score")
  else
    Except.ok
      { column := column_name
        content := SatContent.categorical
          (counterItems (values.map Value.toStr))
          ((most_common (values.map Value.toStr)).head?) }

/-- categorize_satisfaction_score: the body of the def on analyzer.py
lines 247 to 255.  In the source this def is nested, unreachably, inside
analyze_satisfaction_column after its return statement; its body is
embedded here because it is the intent the spec and the claims state. -/
def categorize_satisfaction_score (score : ℚ) : String :=
  if score ≥ 8 then "High Satisfaction"
  else if score ≥ 6 then "Moderate Satisfaction"
  else if score ≥ 4 then "Low Satisfaction"
  else "Poor Satisfaction"

/-- Modelled from the spec: the intended behaviour of
analyze_satisfaction_column.  The numeric branch computes the rounded
average score, the qualitative bucket via categorize_satisfaction_score
applied to the unrounded mean (as analyzer.py line 235 does), and a
value-level score distribution; create_satisfaction_distribution is
absent from the repository and the spec describes it only as a
value-level score distribution, modelled as the scores with their
multiplicities in first-occurrence order. -/
def analyze_satisfaction_column_intended (column_name : String)
    (values : List Value) : SatProfile :=
  let numeric_values := values.filterMap Value.toNum?
  if numeric_values ≠ [] then
    { column := column_name
      content := SatContent.numeric
        (pyRound (statMean numeric_values) 2)
        (categorize_satisfaction_score (statMean numeric_values))
        (counterItems numeric_values) }
  else
    { column := column_name
      content := SatContent.categorical
        (counterItems (values.map Value.toStr))
        ((most_common (values.map Value.toStr)).head?) }

/-- analyze_satisfaction_metrics (analyzer.py lines 202 to 218): select
the keyword-matched columns of the first record, then analyze each one
that has non-null values.  The loop aborts at the first exception, which
the numeric branch of analyze_satisfaction_column raises. -/
def analyze_satisfaction_metrics (data : List Record) :
    Except PyErr (List (String × SatProfile)) :=
  let satisfaction_columns := (firstKeys data).filter is_satisfaction_column
  satisfaction_columns.foldlM (fun acc column =>
    let values := column_values data column
    if values = [] then pure acc
    else do
      let p ← analyze_satisfaction_column column values
      pure (acc ++ [(column, p)])) []

/-- The quality assessment dict (analyzer.py lines 274 to 280).  The
source stores the completeness rate as a percentage string; the model
keeps the numeric value. -/
structure QualityReport where
  completeness_rate : ℚ
  total_records : ℕ
  missing_values : ℕ
  data_quality_score : String
  recommendations : List String

/-- Missing cells of one record: values that are None or the empty string
(analyzer.py lines 266 to 269 iterate over record.values()). -/
def record_missing (r : Record) : ℕ :=
  (r.filter (fun p => decide (p.2 = Value.null ∨ p.2 = Value.text ""))).length

/-- calculate_quality_score (analyzer.py lines 284 to 292). -/
def calculate_quality_score (completeness_rate : ℚ) : String :=
  if completeness_rate ≥ 95 then "Excellent"
  else if completeness_rate ≥ 85 then "Good"
  else if completeness_rate ≥ 70 then "Fair"
  else "Poor"

/-- generate_quality_recommendations (analyzer.py lines 294 to 306). -/
def generate_quality_recommendations (completeness_rate : ℚ) : List String :=
  (if completeness_rate < 95 then
    ["Consider reviewing data collection methods to reduce missing values"]
   else []) ++
  (if completeness_rate < 70 then
    ["Implement data validation rules during collection",
     "Consider making key questions required fields"]
   else []) ++
  ["Regularly monitor data quality metrics"]

/-- The result of assess_data_quality: the error dict for an empty
dataset, or the quality report. -/
inductive QualityResult where
  | error : String → QualityResult
  | report : QualityReport → QualityResult

/-- assess_data_quality (analyzer.py lines 257 to 282): the cell total is
the record count times the first record key count; the missing count
ranges over the own values of every record; the completeness rate is the
rounded percentage of non-missing cells, defined as 0 when the cell
total is 0. -/
def assess_data_quality (data : List Record) : QualityResult :=
  match data with
  | [] => QualityResult.error "No data to assess"
  | r0 :: _ =>
    let total_records := data.length
    let total_fields := (recordKeys r0).length
    let missing_count := (data.map record_missing).sum
    let total_fields_count := total_records * total_fields
    let completeness_rate : ℚ :=
      if total_fields_count > 0 then
        pyRound ((((total_fields_count : ℚ) - (missing_count : ℚ)) /
          (total_fields_count : ℚ)) * 100) 1
      else 0
    QualityResult.report
      { completeness_rate := completeness_rate
        total_records := total_records
        missing_values := missing_count
        data_quality_score := calculate_quality_score completeness_rate
        recommendations := generate_quality_recommendations completeness_rate }

/-- The fields of the analysis dict of analyze_dataset (analyzer.py lines
25 to 32), in evaluation order.  The demographic and free-text sections
call methods that are absent from the repository; their content is the
unit type, since evaluation never reaches them (the response patterns
entry raises first). -/
structure AnalysisSections where
  basic_statistics : BasicStats
  response_patterns : List (String × ℚ)
  satisfaction_analysis : List (String × SatProfile)
  demographic_breakdown : Unit
  text_analysis : Unit
  data_quality : QualityResult

/-- The value returned by analyze_dataset: the error dict for empty
input, or the sections dict. -/
inductive AnalysisResult where
  | errorResult : String → AnalysisResult
  | results : AnalysisSections → AnalysisResult

/-- analyze_demographics is called on analyzer.py line 29 but defined
nowhere in the repository: the lookup raises AttributeError. -/
def analyze_demographics (_data : List Record) : Except PyErr Unit :=
  Except.error (PyErr.attributeError "analyze_demographics")

/-- analyze_text_responses is called on analyzer.py line 30 but defined
nowhere in the repository: the lookup raises AttributeError. -/
def analyze_text_responses (_data : List Record) : Except PyErr Unit :=
  Except.error (PyErr.attributeError "analyze_text_responses")

/-- analyze_dataset (analyzer.py lines 20 to 37): the empty dataset gets
the error dict; otherwise the six sections are evaluated in order.  The
second entry, analyze_response_patterns, raises AttributeError
(analyze_response_consistency does not exist), so for a non-empty
dataset the construction never completes. -/
noncomputable def analyze_dataset (data : List Record) :
    Except PyErr AnalysisResult :=
  if data = [] then
    pure (AnalysisResult.errorResult "No data provided for analysis")
  else do
    let bs := calculate_basic_statistics data
    let rp ← analyze_response_patterns data
    let sat ← analyze_satisfaction_metrics data
    let dem ← analyze_demographics data
    let ta ← analyze_text_responses data
    pure (AnalysisResult.results
      { basic_statistics := bs
        response_patterns := rp
        satisfaction_analysis := sat
        demographic_breakdown := dem
        text_analysis := ta
        data_quality := assess_data_quality data })

/-- The mutable state of a SurveyAnalyzer instance: __init__ sets
analysis_results to an empty dict, modelled as none.  The other instance
field, numeric_threshold, is the constant 0.8 set in __init__ and never
written afterwards; it is the constant numeric_threshold above. -/
structure SurveyAnalyzerState where
  analysis_results : Option AnalysisResult

/-- One call of analyze_dataset on an instance (analyzer.py lines 20 to
37): the result is computed from the dataset alone; on normal completion
it is stored into self.analysis_results (line 35) and returned; the
early return for empty data (line 22) and an exception leave the stored
state unchanged.  The stored state is never read by any computation. -/
noncomputable def analyze_dataset_step (s : SurveyAnalyzerState)
    (data : List Record) :
    SurveyAnalyzerState × Except PyErr AnalysisResult :=
  if data = [] then
    (s, Except.ok (AnalysisResult.errorResult "No data provided for analysis"))
  else
    match analyze_dataset data with
    | Except.ok r => ({ analysis_results := some r }, Except.ok r)
    | Except.error e => (s, Except.error e)

/-- The profile entry stored for a column in a column analysis list. -/
def column_entry (l : List (String × ColumnAnalysis)) (c : String) :
    Option (String × ColumnAnalysis) :=
  l.find? (fun p => decide (p.1 = c))

/-- Specification-side cell total of the quality assessment: record count
times the column count of the first record. -/
def totalCells (data : List Record) : ℕ :=
  data.length * (firstKeys data).length

/-- Specification-side missing cell total: cells that are None or the
empty string, over the own values of every record. -/
def totalMissing (data : List Record) : ℕ :=
  (data.map record_missing).sum

/-- The completeness rate as a function of cell total and missing count:
the rounded percentage of non-missing cells, 0 when there are no cells.
This is definitionally the rate assess_data_quality computes. -/
def completeness_value (T M : ℕ) : ℚ :=
  if T > 0 then pyRound ((((T : ℚ) - (M : ℚ)) / (T : ℚ)) * 100) 1 else 0

/-!
The correlation component.  The spec (section 4.6, CorrelationAnalyzer)
describes a correlation analysis, and the repository visualizer consumes
a correlation_analysis section with a matrix, but no source file under
src/ computes it: the component is absent from the shipped sources.  The
definitions below are therefore modelled from the spec text, as their
doc comments state.
-/

/-- Modelled from the spec: the numeric columns of a dataset, those whose
non-null values the engine type classifier marks numeric. -/
def numeric_columns (data : List Record) : List String :=
  (firstKeys data).filter (fun c =>
    decide (determine_data_type (column_values data c) = DataType.numeric))

/-- Modelled from the spec: the row-wise paired numeric values of two
columns; a record contributes a pair when both its cells coerce. -/
def paired_values (data : List Record) (c1 c2 : String) : List (ℚ × ℚ) :=
  data.filterMap (fun r =>
    match (pyGet r c1).toNum?, (pyGet r c2).toNum? with
    | some a, some b => some (a, b)
    | _, _ => none)

/-- Modelled from the spec: the Pearson correlation coefficient of a list
of paired samples. -/
noncomputable def pearson (ps : List (ℚ × ℚ)) : ℝ :=
  let n : ℝ := (ps.length : ℝ)
  let mx : ℝ := (ps.map (fun p => ((p.1 : ℚ) : ℝ))).sum / n
  let my : ℝ := (ps.map (fun p => ((p.2 : ℚ) : ℝ))).sum / n
  let sxy := (ps.map (fun p => (((p.1 : ℚ) : ℝ) - mx) * (((p.2 : ℚ) : ℝ) - my))).sum
  let sxx := (ps.map (fun p => (((p.1 : ℚ) : ℝ) - mx) ^ 2)).sum
  let syy := (ps.map (fun p => (((p.2 : ℚ) : ℝ) - my) ^ 2)).sum
  sxy / Real.sqrt (sxx * syy)

/-- Modelled from the spec: a correlation matrix entry: 1.0 on the
diagonal as the spec fixes it, otherwise the Pearson coefficient of the
paired column values rounded to 3 decimals. -/
noncomputable def correlation_matrix (data : List Record) (c1 c2 : String) : ℝ :=
  if c1 = c2 then 1 else pyRoundReal (pearson (paired_values data c1 c2)) 3

/-- Modelled from the spec: the strength bucket of a coefficient: at
least 0.7 in absolute value Strong, at least 0.5 Moderate, at least 0.3
Weak, else Very Weak. -/
noncomputable def strength_bucket (r : ℝ) : String :=
  if |r| ≥ 7 / 10 then "Strong"
  else if |r| ≥ 5 / 10 then "Moderate"
  else if |r| ≥ 3 / 10 then "Weak"
  else "Very Weak"

/-- Modelled from the spec: one entry of the ranked correlation list. -/
structure CorrEntry where
  pair : String × String
  corr : ℝ
  strength : String

/-- The ordered pairs of distinct columns, each unordered pair once. -/
def column_pairs : List String → List (String × String)
  | [] => []
  | c :: cs => cs.map (fun d => (c, d)) ++ column_pairs cs

/-- Modelled from the spec: every column pair with its matrix coefficient
and its strength bucket. -/
noncomputable def corr_entries (data : List Record) : List CorrEntry :=
  (column_pairs (numeric_columns data)).map (fun pc =>
    { pair := pc
      corr := correlation_matrix data pc.1 pc.2
      strength := strength_bucket (correlation_matrix data pc.1 pc.2) })

/-- Modelled from the spec: the top 5 column pairs by descending absolute
correlation. -/
noncomputable def strongest_correlations (data : List Record) : List CorrEntry :=
  ((corr_entries data).insertionSort (fun e1 e2 => |e2.corr| ≤ |e1.corr|)).take 5

/-- The correlation section: an informational message, or the matrix with
the ranked top pairs. -/
inductive CorrResult where
  | message : String → CorrResult
  | report : (String → String → ℝ) → List CorrEntry → CorrResult

/-- Modelled from the spec: the correlation analysis over a dataset; with
fewer than 2 numeric columns an informational message, not an error. -/
noncomputable def correlation_analysis (data : List Record) : CorrResult :=
  if (numeric_columns data).length < 2 then
    CorrResult.message "Need at least 2 numeric columns for correlation analysis"
  else
    CorrResult.report (correlation_matrix data) (strongest_correlations data)

/-!
Helper lemmas about rounding.
-/

/-- Rounding an integer changes nothing. -/
theorem pyRoundInt_int (z : ℤ) : pyRoundInt (z : ℚ) = z := by
  norm_num [pyRoundInt]

/-- A rational whose scaled value is an integer is its own rounding. -/
theorem pyRound_of_mul_int (q : ℚ) (n : ℕ) (z : ℤ)
    (h : q * (10 : ℚ) ^ n = (z : ℚ)) : pyRound q n = q := by
  have hp : ((10 : ℚ) ^ n) ≠ 0 := by positivity
  rw [pyRound, h, pyRoundInt_int, div_eq_iff hp]
  exact h.symm

/-- Round half to even never goes below zero for nonnegative input. -/
theorem pyRoundInt_nonneg (q : ℚ) (h : 0 ≤ q) : 0 ≤ pyRoundInt q := by
  have hf : (0 : ℤ) ≤ ⌊q⌋ := Int.floor_nonneg.mpr h
  simp only [pyRoundInt]
  split_ifs <;> omega

/-- Round half to even never exceeds an integer upper bound. -/
theorem pyRoundInt_le (q : ℚ) (B : ℤ) (h : q ≤ (B : ℚ)) : pyRoundInt q ≤ B := by
  have hf : ⌊q⌋ ≤ B := by
    have h2 := Int.floor_le_floor h
    simpa using h2
  simp only [pyRoundInt]
  split_ifs with h1 h2 h3
  · exact hf
  · rcases eq_or_lt_of_le hf with he | hlt
    · exfalso; rw [he] at h2; linarith
    · omega
  · exact hf
  · push_neg at h1
    rcases eq_or_lt_of_le hf with he | hlt
    · exfalso; rw [he] at h1; linarith
    · omega

/-- pyRound preserves nonnegativity. -/
theorem pyRound_nonneg (q : ℚ) (n : ℕ) (h : 0 ≤ q) : 0 ≤ pyRound q n := by
  have h1 : (0 : ℤ) ≤ pyRoundInt (q * 10 ^ n) :=
    pyRoundInt_nonneg _ (by positivity)
  unfold pyRound
  apply div_nonneg
  · exact_mod_cast h1
  · positivity

/-- pyRound preserves an integer upper bound. -/
theorem pyRound_le (q : ℚ) (n : ℕ) (B : ℤ) (h : q ≤ (B : ℚ)) :
    pyRound q n ≤ (B : ℚ) := by
  have hb : q * 10 ^ n ≤ ((B * 10 ^ n : ℤ) : ℚ) := by
    push_cast
    have hp : (0 : ℚ) ≤ (10 : ℚ) ^ n := by positivity
    exact mul_le_mul_of_nonneg_right h hp
  have h2 := pyRoundInt_le (q * 10 ^ n) (B * 10 ^ n) hb
  unfold pyRound
  rw [div_le_iff₀ (by positivity : (0 : ℚ) < 10 ^ n)]
  exact_mod_cast h2

/-!
Claims.
-/

/-- C1: the claim states that for every non-empty dataset analyze_dataset
returns, without raising any exception, a mapping whose top-level keys
include basic_statistics, response_patterns, satisfaction_analysis and
data_quality.  The code violates this: analyze_dataset calls
self.analyze_response_consistency (through analyze_response_patterns),
self.analyze_demographics, self.analyze_text_responses and, for numeric
satisfaction columns, self.categorize_satisfaction_score, none of which
exist in the class as shipped, so every call on a non-empty dataset
raises AttributeError.  Evaluation at the one-record dataset with a
single cell age = 25. -/
theorem C1_analyze_dataset_raises :
    analyze_dataset [[("age", Value.num 25)]]
      = Except.error (PyErr.attributeError "analyze_response_consistency") := rfl

/-- C10: analyze_dataset is deterministic in its input alone: the result
of a call does not depend on the analysis_results state the instance
retains from earlier calls; that stored state is written on normal
completion but never read by any computation. -/
theorem C10_state_independence (s1 s2 : SurveyAnalyzerState)
    (data : List Record) :
    (analyze_dataset_step s1 data).2 = (analyze_dataset_step s2 data).2 := by
  unfold analyze_dataset_step
  split_ifs
  · rfl
  · cases analyze_dataset data <;> rfl

/-- The entry found for a column in the profile list built over a key
list: the profile of the column exactly when the column occurs in the
key list and has non-null values, and no entry otherwise. -/
theorem find_column_entry (data : List Record) (ks : List String) (c : String) :
    column_entry (ks.filterMap (columnEntryBuilder data)) c
    = if c ∈ ks ∧ column_values data c ≠ [] then
        some (c, analyze_column c (column_values data c))
      else none := by
  induction ks with
  | nil => simp [column_entry]
  | cons k ks ih =>
    by_cases hcv : column_values data k = []
    · have hb : columnEntryBuilder data k = none := by
        simp [columnEntryBuilder, hcv]
      by_cases hk : k = c
      · subst hk
        simp only [List.filterMap_cons, hb, ih]
        simp [hcv]
      · have hk2 : ¬ (c = k) := fun h => hk h.symm
        simp only [List.filterMap_cons, hb, ih]
        simp [List.mem_cons, hk2]
    · have hb : columnEntryBuilder data k
          = some (k, analyze_column k (column_values data k)) := by
        simp [columnEntryBuilder, hcv]
      by_cases hk : k = c
      · subst hk
        simp only [List.filterMap_cons, hb]
        rw [column_entry, List.find?_cons_of_pos _ (by simp)]
        simp [hcv]
      · have hk2 : ¬ (c = k) := fun h => hk h.symm
        simp only [List.filterMap_cons, hb]
        rw [column_entry, List.find?_cons_of_neg _ (by simp [hk]), ← column_entry, ih]
        simp [List.mem_cons, hk2]

/-- C4 fails on the code: a column that is null in every record gets no
profile entry, because the loop of calculate_basic_statistics adds an
entry only when the column has at least one non-null value.  In the
one-record dataset whose only cell is a null column a, the key a is a
column of the first record yet basic statistics holds no entry for it. -/
theorem C4_counterexample :
    "a" ∈ firstKeys [[("a", Value.null)]]
    ∧ column_entry
        (calculate_basic_statistics [[("a", Value.null)]]).column_analysis "a"
      = none := by
  constructor
  · decide
  · rfl

/-- C4 amended: for every non-empty dataset, basic statistics contains a
profile entry for every column key of the first record that has at least
one non-null value in some record; columns that are null in every record
are skipped.  The entry is the profile of the column values. -/
theorem C4_profile_entries (data : List Record) (c : String)
    (hc : c ∈ firstKeys data) (hv : column_values data c ≠ []) :
    column_entry (calculate_basic_statistics data).column_analysis c
      = some (c, analyze_column c (column_values data c)) := by
  have h := find_column_entry data (firstKeys data) c
  simp only [calculate_basic_statistics] at *
  rw [h, if_pos ⟨hc, hv⟩]

/-- Witness for C4: the amended claim evaluated at a one-record dataset
with one non-null column. -/
theorem C4_profile_entries_witness :
    "a" ∈ firstKeys [[("a", Value.num 1)]]
    ∧ column_values [[("a", Value.num 1)]] "a" ≠ []
    ∧ column_entry
        (calculate_basic_statistics [[("a", Value.num 1)]]).column_analysis "a"
      = some ("a", analyze_column "a" (column_values [[("a", Value.num 1)]] "a")) :=
  ⟨by decide, by decide, C4_profile_entries _ _ (by decide) (by decide)⟩

/-- C5 fails on the code: a column of 10 empty strings is NOT classified
unknown.  The classifier returns unknown only for an empty value list;
ten empty strings give a numeric ratio of 0 and an average text length of
0, so the column is classified categorical, and categorical statistics
ARE produced for it. -/
theorem C5_counterexample :
    determine_data_type (List.replicate 10 (Value.text "")) = DataType.categorical
    ∧ determine_data_type (List.replicate 10 (Value.text "")) ≠ DataType.unknown
    ∧ (analyze_column "comments" (List.replicate 10 (Value.text ""))).details
      ≠ TypeStats.noStats := by
  have hne : (List.replicate 10 (Value.text "")) ≠ ([] : List Value) := by decide
  have h1 : typeCounts (List.replicate 10 (Value.text "")) = (0, 0) := rfl
  have hdt : determine_data_type (List.replicate 10 (Value.text ""))
      = DataType.categorical := by
    rw [determine_data_type, if_neg hne, h1]
    norm_num [numeric_threshold]
  refine ⟨hdt, by rw [hdt]; simp, ?_⟩
  simp only [analyze_column, hdt]
  simp

/-- C5 amended: a column whose 10 values are all empty strings is
classified categorical, not unknown (unknown is reserved for an empty
value list), and categorical statistics are produced for it: one single
category, the empty string, with count 10. -/
theorem C5_empty_strings_categorical :
    determine_data_type (List.replicate 10 (Value.text "")) = DataType.categorical
    ∧ (analyze_column "comments" (List.replicate 10 (Value.text ""))).details
      = TypeStats.categorical
          (analyze_categorical_column (List.replicate 10 (Value.text "")))
    ∧ (analyze_categorical_column (List.replicate 10 (Value.text ""))).most_common
      = some ("", 10)
    ∧ determine_data_type ([] : List Value) = DataType.unknown := by
  have hne : (List.replicate 10 (Value.text "")) ≠ ([] : List Value) := by decide
  have h1 : typeCounts (List.replicate 10 (Value.text "")) = (0, 0) := rfl
  have hdt : determine_data_type (List.replicate 10 (Value.text ""))
      = DataType.categorical := by
    rw [determine_data_type, if_neg hne, h1]
    norm_num [numeric_threshold]
  refine ⟨hdt, ?_, rfl, rfl⟩
  simp only [analyze_column, hdt]

/-- C7: for every non-empty value list the classifier returns numeric
exactly when the numeric-coercible ratio reaches the 0.8 threshold, else
text when the average failed-parse text length (total failed length over
total value count) exceeds 50, else categorical, the three conditions
evaluated in exactly that order. -/
theorem C7_classification (values : List Value) (h : values ≠ []) :
    determine_data_type values
    = (if ((numericCount values : ℚ) / (values.length : ℚ)) ≥ 8 / 10 then
        DataType.numeric
      else if ((failedTextLength values : ℚ) / (values.length : ℚ)) > 50 then
        DataType.text
      else DataType.categorical) := by
  rw [determine_data_type, if_neg h, typeCounts_eq]
  rfl

/-- Witness for C7: the classification shape evaluated at a singleton
numeric column. -/
theorem C7_classification_witness :
    ([Value.num 1] ≠ ([] : List Value))
    ∧ determine_data_type [Value.num 1]
      = (if ((numericCount [Value.num 1] : ℚ)
            / ((List.length [Value.num 1] : ℚ))) ≥ 8 / 10 then
          DataType.numeric
        else if ((failedTextLength [Value.num 1] : ℚ)
            / ((List.length [Value.num 1] : ℚ))) > 50 then
          DataType.text
        else DataType.categorical) :=
  ⟨by decide, C7_classification _ (by decide)⟩

/-- C8: the claim says that with no unique mode the numeric analysis
reports the rounded mean instead of failing.  The code contradicts its
own comment: on the Python versions the package declares (setup.py pins
python_requires to at least 3.8), statistics.mode returns the
first-encountered most common value on a tie and raises StatisticsError
only for empty input, so the except branch of safe_mode that substitutes
the mean is dead code.  On the tied list [1, 1, 2, 2] the code returns
1.0 while the claim requires the rounded mean 1.5. -/
theorem C8_mode_tie_eval :
    safe_mode [1, 1, 2, 2] = 1
    ∧ pyRound (statMean [1, 1, 2, 2]) 2 = 3 / 2
    ∧ (1 : ℚ) ≠ 3 / 2 := by
  have hmode : pyMode [1, 1, 2, 2] = some 1 := by
    norm_num [pyMode, most_common, counterItems, counterKeys, firstUniques,
      insertByCount, List.count_cons, List.count_nil]
  have h1 : pyRound (1 : ℚ) 2 = 1 := pyRound_of_mul_int _ _ 100 (by norm_num)
  have hmean : statMean [1, 1, 2, 2] = 3 / 2 := by
    norm_num [statMean]
  have h2 : pyRound ((3 : ℚ) / 2) 2 = 3 / 2 :=
    pyRound_of_mul_int _ _ 150 (by norm_num)
  refine ⟨?_, ?_, by norm_num⟩
  · rw [safe_mode, hmode]
    exact h1
  · rw [hmean]
    exact h2

/-- C3: the claim says the satisfaction analysis of a rating column with
values [9, 7, 5, 3, 10] reports average 6.8 and the bucket Moderate
Satisfaction.  The code instead raises: with numeric-coercible values
present, analyze_satisfaction_column evaluates
self.categorize_satisfaction_score, which does not exist (its def is
nested inside the method after the return, so it never becomes an
attribute).  The intended computation, with that def restored, does give
average 6.8 = 34/5 and Moderate Satisfaction, as 6 <= 6.8 < 8. -/
theorem C3_rating_scenario :
    analyze_satisfaction_metrics
        [[("rating", Value.num 9)], [("rating", Value.num 7)],
         [("rating", Value.num 5)], [("rating", Value.num 3)],
         [("rating", Value.num 10)]]
      = Except.error (PyErr.attributeError "categorize_satisfaction_score")
    ∧ column_values
        [[("rating", Value.num 9)], [("rating", Value.num 7)],
         [("rating", Value.num 5)], [("rating", Value.num 3)],
         [("rating", Value.num 10)]] "rating"
      = [Value.num 9, Value.num 7, Value.num 5, Value.num 3, Value.num 10]
    ∧ (∃ dist, analyze_satisfaction_column_intended "rating"
        [Value.num 9, Value.num 7, Value.num 5, Value.num 3, Value.num 10]
      = { column := "rating"
          content := SatContent.numeric (34 / 5) "Moderate Satisfaction" dist })
    ∧ (6 : ℚ) ≤ 34 / 5 ∧ (34 : ℚ) / 5 < 8 := by
  have hfm : List.filterMap Value.toNum?
      [Value.num 9, Value.num 7, Value.num 5, Value.num 3, Value.num 10]
      = [(9 : ℚ), 7, 5, 3, 10] := rfl
  have hmean : statMean [(9 : ℚ), 7, 5, 3, 10] = 34 / 5 := by
    norm_num [statMean]
  have hround : pyRound ((34 : ℚ) / 5) 2 = 34 / 5 :=
    pyRound_of_mul_int _ _ 680 (by norm_num)
  have hcat : categorize_satisfaction_score ((34 : ℚ) / 5)
      = "Moderate Satisfaction" := by
    rw [categorize_satisfaction_score, if_neg (by norm_num), if_pos (by norm_num)]
  refine ⟨rfl, rfl, ?_, by norm_num, by norm_num⟩
  refine ⟨counterItems [(9 : ℚ), 7, 5, 3, 10], ?_⟩
  rw [analyze_satisfaction_column_intended]
  simp only [hfm]
  rw [if_pos (by simp : ([(9 : ℚ), 7, 5, 3, 10] ≠ []))]
  rw [hmean, hround, hcat]

/-- With at most as many missing cells as cells, the completeness rate
is within [0, 100]. -/
theorem completeness_value_bounds (T M : ℕ) (h : M ≤ T) :
    0 ≤ completeness_value T M ∧ completeness_value T M ≤ 100 := by
  unfold completeness_value
  split_ifs with hT
  · have hT0 : (0 : ℚ) < (T : ℚ) := by exact_mod_cast hT
    have hMT : (M : ℚ) ≤ (T : ℚ) := by exact_mod_cast h
    constructor
    · apply pyRound_nonneg
      apply mul_nonneg _ (by norm_num)
      apply div_nonneg (by linarith) (le_of_lt hT0)
    · have hfrac : ((T : ℚ) - (M : ℚ)) / (T : ℚ) ≤ 1 := by
        rw [div_le_one hT0]
        linarith
      have hx : ((T : ℚ) - (M : ℚ)) / (T : ℚ) * 100 ≤ 100 := by nlinarith
      have h2 := pyRound_le ((((T : ℚ) - (M : ℚ)) / (T : ℚ)) * 100) 1 100
        (by exact_mod_cast hx)
      simpa using h2
  · norm_num

/-- With no missing cell and a positive cell total, the completeness rate
is exactly 100. -/
theorem completeness_value_full (T : ℕ) (hT : 0 < T) :
    completeness_value T 0 = 100 := by
  unfold completeness_value
  rw [if_pos hT]
  have hT0 : ((T : ℚ)) ≠ 0 := by
    have : (0 : ℚ) < (T : ℚ) := by exact_mod_cast hT
    linarith
  have hval : (((T : ℚ) - ((0 : ℕ) : ℚ)) / (T : ℚ)) * 100 = 100 := by
    push_cast
    field_simp
  rw [hval]
  exact pyRound_of_mul_int _ _ 1000 (by norm_num)

/-- C6 fails on the code as stated over every dataset.  First part: when
a later record carries keys beyond the first record, the missing count
can exceed the cell total (which only sees the first record columns), and
the completeness rate goes negative: with records {a: 1} and
{b: None, c: None, d: None} the cell total is 2, missing is 3, and the
rate is -50.  Second part: for the dataset of one empty record there is
no missing cell at all, yet the rate is 0, not 100, because the cell
total is 0. -/
theorem C6_counterexample :
    (∃ q, assess_data_quality
        [[("a", Value.num 1)],
         [("b", Value.null), ("c", Value.null), ("d", Value.null)]]
      = QualityResult.report q ∧ q.completeness_rate < 0)
    ∧ (∃ q, assess_data_quality [([] : Record)]
      = QualityResult.report q
      ∧ q.missing_values = 0 ∧ q.completeness_rate = 0) := by
  constructor
  · refine ⟨_, rfl, ?_⟩
    have h50 : pyRound (-50 : ℚ) 1 = -50 :=
      pyRound_of_mul_int _ _ (-500) (by norm_num)
    have hm1 : record_missing [("a", Value.num 1)] = 0 := rfl
    have hm2 : record_missing
        [("b", Value.null), ("c", Value.null), ("d", Value.null)] = 3 := rfl
    norm_num [assess_data_quality, recordKeys, hm1, hm2, h50]
  · exact ⟨_, rfl, rfl, rfl⟩

/-- C6 amended: for every non-empty dataset in which each record has
distinct keys all drawn from the first record keys (the data model of
the spec), the completeness rate is within [0, 100]; it is exactly 100
when the cell total is positive and no record has a missing cell; it is
the rounded formula value when the cell total is positive; and it is 0
when the cell total is 0.  The original claim additionally asserted the
rate is 100 for datasets with no missing cell even when they have no
cells at all, and asserted the bounds for arbitrary ragged datasets;
both fail, as the counterexample shows. -/
theorem C6_completeness_bounds (data : List Record) (r0 : Record)
    (rest : List Record) (hdata : data = r0 :: rest)
    (hnodup : ∀ r ∈ data, (recordKeys r).Nodup)
    (hsub : ∀ r ∈ data, ∀ k ∈ recordKeys r, k ∈ recordKeys r0) :
    ∃ q, assess_data_quality data = QualityResult.report q
      ∧ 0 ≤ q.completeness_rate ∧ q.completeness_rate ≤ 100
      ∧ (0 < totalCells data → (∀ r ∈ data, record_missing r = 0) →
          q.completeness_rate = 100)
      ∧ (0 < totalCells data →
          q.completeness_rate
            = pyRound ((((totalCells data : ℚ) - (totalMissing data : ℚ)) /
                (totalCells data : ℚ)) * 100) 1)
      ∧ (totalCells data = 0 → q.completeness_rate = 0) := by
  subst hdata
  have hM_le : ∀ r ∈ r0 :: rest, record_missing r ≤ (recordKeys r0).length := by
    intro r hr
    have hnd := hnodup r hr
    have hs : ∀ k ∈ recordKeys r, k ∈ recordKeys r0 := hsub r hr
    calc record_missing r ≤ r.length := List.length_filter_le _ _
      _ = (recordKeys r).length := by simp [recordKeys]
      _ = (recordKeys r).toFinset.card := (List.toFinset_card_of_nodup hnd).symm
      _ ≤ (recordKeys r0).toFinset.card := by
          apply Finset.card_le_card
          intro x hx
          rw [List.mem_toFinset] at hx ⊢
          exact hs x hx
      _ ≤ (recordKeys r0).length := List.toFinset_card_le _
  have hMT : totalMissing (r0 :: rest) ≤ totalCells (r0 :: rest) := by
    have hb : ∀ x ∈ (r0 :: rest).map record_missing,
        x ≤ (recordKeys r0).length := by
      intro x hx
      rcases List.mem_map.mp hx with ⟨r, hr, rfl⟩
      exact hM_le r hr
    have hsum := List.sum_le_card_nsmul _ _ hb
    rw [List.length_map, smul_eq_mul] at hsum
    calc totalMissing (r0 :: rest) = ((r0 :: rest).map record_missing).sum := rfl
      _ ≤ (r0 :: rest).length * (recordKeys r0).length := hsum
      _ = totalCells (r0 :: rest) := rfl
  refine ⟨_, rfl, ?_, ?_, ?_, ?_, ?_⟩
  · exact (completeness_value_bounds _ _ hMT).1
  · exact (completeness_value_bounds _ _ hMT).2
  · intro hTpos hclean
    have hM0 : totalMissing (r0 :: rest) = 0 := by
      apply List.sum_eq_zero
      intro x hx
      rcases List.mem_map.mp hx with ⟨r, hr, rfl⟩
      exact hclean r hr
    show completeness_value (totalCells (r0 :: rest)) (totalMissing (r0 :: rest))
      = 100
    rw [hM0]
    exact completeness_value_full _ hTpos
  · intro hTpos
    show completeness_value (totalCells (r0 :: rest)) (totalMissing (r0 :: rest))
      = pyRound ((((totalCells (r0 :: rest) : ℚ) - (totalMissing (r0 :: rest) : ℚ))
        / (totalCells (r0 :: rest) : ℚ)) * 100) 1
    rw [completeness_value, if_pos hTpos]
  · intro hT0
    show completeness_value (totalCells (r0 :: rest)) (totalMissing (r0 :: rest)) = 0
    rw [completeness_value, if_neg (by omega)]

/-- Witness for C6: the amended claim evaluated at a one-record dataset
with a non-null column and a null column (cell total 2, one missing). -/
theorem C6_completeness_bounds_witness :
    (∀ r ∈ [[("a", Value.num 1), ("b", Value.null)]], (recordKeys r).Nodup)
    ∧ (∀ r ∈ [[("a", Value.num 1), ("b", Value.null)]],
        ∀ k ∈ recordKeys r, k ∈ recordKeys [("a", Value.num 1), ("b", Value.null)])
    ∧ (∃ q, assess_data_quality [[("a", Value.num 1), ("b", Value.null)]]
        = QualityResult.report q
      ∧ 0 ≤ q.completeness_rate ∧ q.completeness_rate ≤ 100
      ∧ (0 < totalCells [[("a", Value.num 1), ("b", Value.null)]] →
          (∀ r ∈ [[("a", Value.num 1), ("b", Value.null)]], record_missing r = 0) →
          q.completeness_rate = 100)
      ∧ (0 < totalCells [[("a", Value.num 1), ("b", Value.null)]] →
          q.completeness_rate
            = pyRound ((((totalCells [[("a", Value.num 1), ("b", Value.null)]] : ℚ)
                - (totalMissing [[("a", Value.num 1), ("b", Value.null)]] : ℚ)) /
                (totalCells [[("a", Value.num 1), ("b", Value.null)]] : ℚ)) * 100) 1)
      ∧ (totalCells [[("a", Value.num 1), ("b", Value.null)]] = 0 →
          q.completeness_rate = 0)) :=
  ⟨by decide, by decide,
    C6_completeness_bounds _ _ _ rfl (by decide) (by decide)⟩

/-- C9: a numeric analysis with no surviving coercible value returns the
error marker for the column instead of raising; a text analysis whose
values are all falsy returns its error marker; and the profile entry of
any other column is unchanged: it depends only on that column membership
in the first record keys and on that column own values. -/
theorem C9_error_markers (values tvalues : List Value)
    (data1 data2 : List Record) (c : String)
    (hnum : values.filterMap Value.toNum? = [])
    (htext : tvalues.filter Value.truthy = [])
    (hkeys : c ∈ firstKeys data1 ↔ c ∈ firstKeys data2)
    (hvals : column_values data1 c = column_values data2 c) :
    analyze_numeric_column values = Except.error "No valid numeric values found"
    ∧ analyze_text_column tvalues = Except.error "No text values found"
    ∧ column_entry (calculate_basic_statistics data1).column_analysis c
      = column_entry (calculate_basic_statistics data2).column_analysis c := by
  refine ⟨?_, ?_, ?_⟩
  · rw [analyze_numeric_column]
    simp [hnum]
  · rw [analyze_text_column]
    simp [htext]
  · have h1 := find_column_entry data1 (firstKeys data1) c
    have h2 := find_column_entry data2 (firstKeys data2) c
    simp only [calculate_basic_statistics]
    rw [h1, h2, hvals]
    exact if_congr (and_congr_left (fun _ => hkeys)) rfl rfl

/-- Witness for C9: the numeric error marker on a single non-numeric
text value, the text error marker on a single empty string, and the
unchanged profile of a text column b across two datasets that differ in
their other column. -/
theorem C9_error_markers_witness :
    (List.filterMap Value.toNum? [Value.text "x"] = [])
    ∧ (List.filter Value.truthy [Value.text ""] = [])
    ∧ ("b" ∈ firstKeys [[("a", Value.num 1), ("b", Value.text "x")]]
        ↔ "b" ∈ firstKeys [[("q", Value.text "y"), ("b", Value.text "x")], [("b", Value.null)]])
    ∧ (column_values [[("a", Value.num 1), ("b", Value.text "x")]] "b"
        = column_values [[("q", Value.text "y"), ("b", Value.text "x")], [("b", Value.null)]] "b")
    ∧ (analyze_numeric_column [Value.text "x"]
        = Except.error "No valid numeric values found"
      ∧ analyze_text_column [Value.text ""]
        = Except.error "No text values found"
      ∧ column_entry (calculate_basic_statistics
          [[("a", Value.num 1), ("b", Value.text "x")]]).column_analysis "b"
        = column_entry (calculate_basic_statistics
          [[("q", Value.text "y"), ("b", Value.text "x")], [("b", Value.null)]]).column_analysis "b") :=
  ⟨by decide, by decide, by decide, by decide,
    C9_error_markers _ _ _ _ _ (by decide) (by decide) (by decide) (by decide)⟩

/-- Pairing two columns in the opposite order swaps every sample pair. -/
theorem paired_values_swap (data : List Record) (c1 c2 : String) :
    paired_values data c2 c1 = (paired_values data c1 c2).map Prod.swap := by
  unfold paired_values
  induction data with
  | nil => simp
  | cons r rs ih =>
    cases h1 : (pyGet r c1).toNum? with
    | none =>
      cases h2 : (pyGet r c2).toNum? with
      | none => simp [List.filterMap_cons, h1, h2, ih]
      | some b => simp [List.filterMap_cons, h1, h2, ih]
    | some a =>
      cases h2 : (pyGet r c2).toNum? with
      | none => simp [List.filterMap_cons, h1, h2, ih]
      | some b => simp [List.filterMap_cons, h1, h2, ih, Prod.swap]

/-- The Pearson coefficient is symmetric in the two coordinates. -/
theorem pearson_swap (ps : List (ℚ × ℚ)) :
    pearson (ps.map Prod.swap) = pearson ps := by
  unfold pearson
  simp only [List.map_map, List.length_map, Function.comp_def, Prod.swap]
  congr 1
  · apply congrArg List.sum
    apply List.map_congr_left
    intro p _
    ring
  · congr 1
    exact mul_comm _ _

/-- The correlation matrix is symmetric. -/
theorem correlation_matrix_symm (data : List Record) (c1 c2 : String) :
    correlation_matrix data c1 c2 = correlation_matrix data c2 c1 := by
  unfold correlation_matrix
  by_cases h : c1 = c2
  · subst h
    simp
  · rw [if_neg h, if_neg (fun he => h he.symm)]
    rw [paired_values_swap data c1 c2, pearson_swap]

/-- C2, spec-modelled: the correlation component is absent from the
shipped sources, so it is reconstructed from the spec.  For a dataset
with at least 2 numeric columns the correlation analysis is a report
holding the full pairwise matrix — symmetric, every diagonal entry 1,
every off-diagonal entry the Pearson coefficient of the paired column
values rounded to 3 decimals — together with the ranked top pairs: at
most 5 (all pairs when fewer exist), in descending order of absolute
correlation, each annotated with its strength bucket.  With fewer than 2
numeric columns an informational message is returned instead of an
error. -/
theorem C2_correlation (data : List Record) :
    (2 ≤ (numeric_columns data).length →
      ∃ m top, correlation_analysis data = CorrResult.report m top
        ∧ (∀ c1 c2 : String, m c1 c2 = m c2 c1)
        ∧ (∀ c : String, m c c = 1)
        ∧ (∀ c1 c2 : String, c1 ≠ c2 →
            m c1 c2 = pyRoundReal (pearson (paired_values data c1 c2)) 3)
        ∧ top.length = min 5 (column_pairs (numeric_columns data)).length
        ∧ List.Sorted (fun e1 e2 : CorrEntry => |e2.corr| ≤ |e1.corr|) top
        ∧ (∀ e ∈ top, e.strength = strength_bucket e.corr))
    ∧ ((numeric_columns data).length < 2 →
      correlation_analysis data
        = CorrResult.message
            "Need at least 2 numeric columns for correlation analysis") := by
  constructor
  · intro h
    refine ⟨correlation_matrix data, strongest_correlations data,
      ?_, ?_, ?_, ?_, ?_, ?_, ?_⟩
    · rw [correlation_analysis, if_neg (by omega)]
    · exact fun c1 c2 => correlation_matrix_symm data c1 c2
    · intro c
      rw [correlation_matrix, if_pos rfl]
    · intro c1 c2 hne
      rw [correlation_matrix, if_neg hne]
    · rw [strongest_correlations, List.length_take,
        (List.perm_insertionSort _ _).length_eq, corr_entries, List.length_map]
    · rw [strongest_correlations]
      apply List.Pairwise.sublist (List.take_sublist _ _)
      haveI ht : IsTotal CorrEntry (fun e1 e2 => |e2.corr| ≤ |e1.corr|) :=
        ⟨fun a b => le_total _ _⟩
      haveI htr : IsTrans CorrEntry (fun e1 e2 => |e2.corr| ≤ |e1.corr|) :=
        ⟨fun a b c hab hbc => le_trans hbc hab⟩
      exact List.sorted_insertionSort _ _
    · intro e he
      have h2 : e ∈ (corr_entries data).insertionSort
          (fun e1 e2 => |e2.corr| ≤ |e1.corr|) :=
        List.take_subset _ _ he
      have h3 : e ∈ corr_entries data :=
        ((List.perm_insertionSort _ _).mem_iff).mp h2
      simp only [corr_entries, List.mem_map] at h3
      rcases h3 with ⟨pc, _, rfl⟩
      rfl
  · intro h
    rw [correlation_analysis, if_pos h]

/-- Witness for C2: both branches evaluated, the report branch on a
dataset of two numeric columns, the message branch on a dataset whose
single column is textual. -/
theorem C2_correlation_witness :
    (2 ≤ (numeric_columns
        [[("a", Value.num 1), ("b", Value.num 2)],
         [("a", Value.num 2), ("b", Value.num 1)]]).length
      ∧ (∃ m top, correlation_analysis
            [[("a", Value.num 1), ("b", Value.num 2)],
             [("a", Value.num 2), ("b", Value.num 1)]]
          = CorrResult.report m top
        ∧ (∀ c1 c2 : String, m c1 c2 = m c2 c1)
        ∧ (∀ c : String, m c c = 1)
        ∧ (∀ c1 c2 : String, c1 ≠ c2 →
            m c1 c2 = pyRoundReal (pearson (paired_values
              [[("a", Value.num 1), ("b", Value.num 2)],
               [("a", Value.num 2), ("b", Value.num 1)]] c1 c2)) 3)
        ∧ top.length = min 5 (column_pairs (numeric_columns
            [[("a", Value.num 1), ("b", Value.num 2)],
             [("a", Value.num 2), ("b", Value.num 1)]])).length
        ∧ List.Sorted (fun e1 e2 : CorrEntry => |e2.corr| ≤ |e1.corr|) top
        ∧ (∀ e ∈ top, e.strength = strength_bucket e.corr)))
    ∧ ((numeric_columns [[("a", Value.text "x")]]).length < 2
      ∧ correlation_analysis [[("a", Value.text "x")]]
        = CorrResult.message
            "Need at least 2 numeric columns for correlation analysis") := by
  have hcva : column_values
      [[("a", Value.num 1), ("b", Value.num 2)],
       [("a", Value.num 2), ("b", Value.num 1)]] "a"
      = [Value.num 1, Value.num 2] := rfl
  have hcvb : column_values
      [[("a", Value.num 1), ("b", Value.num 2)],
       [("a", Value.num 2), ("b", Value.num 1)]] "b"
      = [Value.num 2, Value.num 1] := rfl
  have hta : typeCounts [Value.num 1, Value.num 2] = (2, 0) := rfl
  have htb : typeCounts [Value.num 2, Value.num 1] = (2, 0) := rfl
  have hda : determine_data_type (column_values
      [[("a", Value.num 1), ("b", Value.num 2)],
       [("a", Value.num 2), ("b", Value.num 1)]] "a") = DataType.numeric := by
    rw [hcva, determine_data_type, if_neg (by decide), hta]
    norm_num [numeric_threshold]
  have hdb : determine_data_type (column_values
      [[("a", Value.num 1), ("b", Value.num 2)],
       [("a", Value.num 2), ("b", Value.num 1)]] "b") = DataType.numeric := by
    rw [hcvb, determine_data_type, if_neg (by decide), htb]
    norm_num [numeric_threshold]
  have hnc : numeric_columns
      [[("a", Value.num 1), ("b", Value.num 2)],
       [("a", Value.num 2), ("b", Value.num 1)]] = ["a", "b"] := by
    simp only [numeric_columns]
    rw [show firstKeys
        [[("a", Value.num 1), ("b", Value.num 2)],
         [("a", Value.num 2), ("b", Value.num 1)]] = ["a", "b"] from rfl]
    rw [List.filter_cons, List.filter_cons, List.filter_nil]
    simp [hda, hdb]
  have hcv1 : column_values [[("a", Value.text "x")]] "a"
      = [Value.text "x"] := rfl
  have htc1 : typeCounts [Value.text "x"] = (0, 1) := rfl
  have hd1 : determine_data_type (column_values [[("a", Value.text "x")]] "a")
      = DataType.categorical := by
    rw [hcv1, determine_data_type, if_neg (by decide), htc1]
    norm_num [numeric_threshold]
  have hnc1 : numeric_columns [[("a", Value.text "x")]] = [] := by
    simp only [numeric_columns]
    rw [show firstKeys [[("a", Value.text "x")]] = ["a"] from rfl]
    rw [List.filter_cons, List.filter_nil]
    simp [hd1]
  refine ⟨⟨?_, (C2_correlation _).1 ?_⟩, ?_, (C2_correlation _).2 ?_⟩
  · rw [hnc]
    decide
  · rw [hnc]
    decide
  · rw [hnc1]
    decide
  · rw [hnc1]
    decide

end SurveyAnalysis
